import Mathlib

/-!
Verification of the LeapOCR Go SDK completion waiter
(`WaitUntilDoneWithOptions` and its helpers `applyWaitDefaults`,
`checkMaxAttempts`, `checkContext`, `pollJobStatus`, `waitWithBackoff`,
`calculateNextDelay`).

Modelling conventions:
* Go `time.Duration` is an `int64` count of nanoseconds; it is modelled as `Int`.
* Go `float64` values (`WaitOptions.Multiplier`) are modelled as `ℚ`; every
  finite `float64` is a rational, and all concrete inputs used below are
  exactly representable.  The Go float-to-integer conversion truncates toward
  zero, modelled by `goTrunc`.
* The Go `error` interface value is modelled by `GoError`: either a concrete
  `SDKError` built by the SDK, or an opaque collaborator error (`other`).
  The `Cause` field of `SDKError` (a wrapped `error`, in the waiter always
  `nil` or `ctx.Err()`) is modelled by an `Option String` holding the cause
  error text.
* The network collaborators (`getJobStatus`, `getJobResult`), the jitter
  random stream (`crypto/rand.Int`) and the cancellation context are
  modelled as an environment `WaitEnv` of response streams; the context is a
  pair of boolean streams: whether `ctx.Done()` is ready at the
  `checkContext` call of iteration `i`, and whether the `ctx.Done()` branch
  of the sleep `select` fires during the sleep of iteration `i`.
* `map[string]interface{}` payload fields (`OCRResult.Data`,
  `PageResult.Data`) are omitted: the waiter never inspects them and they
  never influence control flow.
* The unbounded `for` loop is run on explicit fuel; `WaitOutcome.outOfFuel`
  marks exhaustion of the fuel, never a behaviour of the Go code.
-/

namespace LeapOCR

/-- Go `time.Duration`: int64 nanoseconds, modelled as `Int`. -/
abbrev Duration := Int

/-- Value of `time.Second` in nanoseconds. -/
def second : Duration := 1000000000

/-- Go float64-to-int64 conversion truncates toward zero. -/
def goTrunc (x : ℚ) : Int := if x < 0 then ⌈x⌉ else ⌊x⌋

/-- Model of `type ErrorType string` (errors.go). -/
abbrev ErrorType := String

def ErrorTypeInvalidConfig : ErrorType := "invalid_config"

def ErrorTypeValidationError : ErrorType := "validation_error"

def ErrorTypeHTTPError : ErrorType := "http_error"

def ErrorTypeAPIError : ErrorType := "api_error"

def ErrorTypeTimeout : ErrorType := "timeout"

def ErrorTypeUploadError : ErrorType := "upload_error"

def ErrorTypeJobError : ErrorType := "job_error"

def ErrorTypeUnknown : ErrorType := "unknown"

/-- Model of `SDKError` (errors.go); its `Cause` is modelled as the error text of the cause. -/
structure SDKError where
  type : ErrorType
  message : String
  statusCode : Int
  cause : Option String
deriving DecidableEq

/-- Model of `NewSDKError` (errors.go): StatusCode is left at its zero value. -/
def NewSDKError (errorType : ErrorType) (message : String) (cause : Option String) :
    SDKError :=
  { type := errorType, message := message, statusCode := 0, cause := cause }

/-- A Go `error` interface value: an SDK-built `*SDKError`, or an opaque
error produced by a collaborator. -/
inductive GoError where
  | sdkError (e : SDKError)
  | other (desc : String)
deriving DecidableEq

/-- Model of `JobStatusInfo` (waiter file). -/
structure JobStatusInfo where
  id : String
  status : String
  progress : ℚ
  estimatedTime : Int
  error : String
deriving DecidableEq

/-- Model of `PageResult` (types.go); the `Data` map is omitted (never read by the
waiter). -/
structure PageResult where
  pageNumber : Int
  text : String
  confidence : ℚ
deriving DecidableEq

/-- Model of `OCRResult` (types.go); the `Data` map is omitted (never read by the
waiter). -/
structure OCRResult where
  text : String
  pages : List PageResult
  credits : Int
  duration : Duration
  jobID : String
  status : String
deriving DecidableEq

/-- Model of `WaitOptions` (waiter file). -/
structure WaitOptions where
  initialDelay : Duration
  maxDelay : Duration
  multiplier : ℚ
  maxJitter : Duration
  maxAttempts : Int
deriving DecidableEq

/-- Model of `DefaultWaitOptions` (waiter file); here `3/2` is the float literal `1.5`. -/
def DefaultWaitOptions : WaitOptions :=
  { initialDelay := second
    maxDelay := 30 * second
    multiplier := 3/2
    maxJitter := second
    maxAttempts := 0 }

/-- Model of `applyWaitDefaults` (waiter file): each zero-valued field is replaced by
its default, field by field, mirroring the Go assignments. -/
def applyWaitDefaults (opts : WaitOptions) : WaitOptions :=
  let opts1 := if opts.initialDelay = 0 then { opts with initialDelay := second } else opts
  let opts2 := if opts1.maxDelay = 0 then { opts1 with maxDelay := 30 * second } else opts1
  let opts3 := if opts2.multiplier = 0 then { opts2 with multiplier := 3/2 } else opts2
  if opts3.maxJitter = 0 then { opts3 with maxJitter := second } else opts3

/-- Model of `checkMaxAttempts` (waiter file). -/
def checkMaxAttempts (attempts maxAttempts : Int) : Option SDKError :=
  if maxAttempts > 0 ∧ attempts ≥ maxAttempts then
    some (NewSDKError ErrorTypeTimeout "maximum polling attempts exceeded" none)
  else
    none

/-- Model of `checkContext` (waiter file): `done` is whether `ctx.Done()` is ready at
this check; `ctxErr` is the text of `ctx.Err()`. -/
def checkContext (done : Bool) (ctxErr : String) : Option SDKError :=
  if done then
    some (NewSDKError ErrorTypeTimeout "context canceled while waiting for completion" (some ctxErr))
  else
    none

/-- Outcome of one `pollJobStatus` call (the Go `(*OCRResult, bool, error)`
triple, with the five possible shapes made explicit). -/
inductive PollOutcome where
  | finished (r : OCRResult)
  | resultFetchErr (e : GoError)
  | statusFetchErr (e : GoError)
  | jobFailed (e : SDKError)
  | keepPolling
deriving DecidableEq

/-- Model of `pollJobStatus` (waiter file), as a function of the responses the two
collaborators would give: the `getJobStatus` response and, consulted only in
the "completed" branch, the `getJobResult` response. -/
def pollJobStatus (statusResp : Except GoError JobStatusInfo)
    (resultResp : Except GoError OCRResult) : PollOutcome :=
  match statusResp with
  | .error e => .statusFetchErr e
  | .ok st =>
    if st.status = "completed" then
      match resultResp with
      | .ok r => .finished r
      | .error e => .resultFetchErr e
    else if st.status = "failed" ∨ st.status = "error" then
      .jobFailed (NewSDKError ErrorTypeJobError "job failed" none)
    else if st.status = "canceled" then
      .jobFailed (NewSDKError ErrorTypeJobError "job was canceled" none)
    else
      .keepPolling

/-- The terminal lifecycle states recognised by `pollJobStatus`. -/
def isTerminalStatus (status : String) : Bool :=
  status == "completed" || status == "failed" || status == "error" || status == "canceled"

/-- Sleep duration computed in `waitWithBackoff`: `delay + jitter`. -/
def sleepDurationOf (delay jitter : Duration) : Duration := delay + jitter

/-- Outcome of one `waitWithBackoff` call.  `panicked` models the Go panic
raised by `crypto/rand.Int` when its bound is ≤ 0. -/
inductive SleepOutcome where
  | panicked
  | ctxCanceled (e : SDKError)
  | slept (d : Duration)
deriving DecidableEq

/-- Model of `waitWithBackoff` (waiter file).  `jitterSample` is the value the random
source would yield (`crypto/rand.Int` guarantees it lies in
`[0, maxJitter)` whenever `maxJitter > 0`, and panics when `maxJitter ≤ 0`);
`ctxDone` is whether the `ctx.Done()` branch of the `select` fires before
the timer. -/
def waitWithBackoff (ctxDone : Bool) (delay maxJitter jitterSample : Duration)
    (ctxErr : String) : SleepOutcome :=
  if maxJitter ≤ 0 then
    .panicked
  else
    let jitter := jitterSample
    let sleepDuration := sleepDurationOf delay jitter
    if ctxDone then
      .ctxCanceled (NewSDKError ErrorTypeTimeout "context canceled while waiting" (some ctxErr))
    else
      .slept sleepDuration

/-- Model of `calculateNextDelay` (waiter file):
`time.Duration(float64(currentDelay) * multiplier)` clamped to `maxDelay`. -/
def calculateNextDelay (currentDelay : Duration) (multiplier : ℚ) (maxDelay : Duration) :
    Duration :=
  let nextDelay := goTrunc ((currentDelay : ℚ) * multiplier)
  if nextDelay > maxDelay then maxDelay else nextDelay

/-- The cancellation context: whether `ctx.Done()` is ready at the
`checkContext` call of iteration `i`, whether the `ctx.Done()` branch wins
the sleep `select` of iteration `i`, and the text of `ctx.Err()`. -/
structure CtxModel where
  doneAtCheck : Nat → Bool
  doneInSleep : Nat → Bool
  errMsg : String

/-- Environment of a wait call: the collaborator response streams (indexed
by how many calls to each have already been issued), the context, and the
jitter random stream (indexed by iteration). -/
structure WaitEnv where
  statusFetch : Nat → Except GoError JobStatusInfo
  resultFetch : Nat → Except GoError OCRResult
  ctx : CtxModel
  jitter : Nat → Duration

/-- Loop state of `WaitUntilDoneWithOptions`, instrumented with the number
of status polls and result polls issued so far and the iteration index. -/
structure WaitState where
  attempts : Int
  currentDelay : Duration
  statusPolls : Nat
  resultPolls : Nat
  iter : Nat
deriving DecidableEq

/-- Result of a wait call.  `panicked` models a Go runtime panic;
`outOfFuel` marks exhausted fuel (a model artefact, not a Go behaviour). -/
inductive WaitOutcome where
  | ok (r : OCRResult)
  | err (e : GoError)
  | panicked
  | outOfFuel
deriving DecidableEq

/-- The `for` loop of `WaitUntilDoneWithOptions`, on fuel.  Each iteration:
max-attempts check, context check, increment `attempts`, poll status
(counted), act on the poll outcome, sleep with backoff and jitter, update
`currentDelay` via `calculateNextDelay`. -/
def runWaitAux (env : WaitEnv) (opts : WaitOptions) :
    Nat → WaitState → WaitOutcome × WaitState
  | 0, s => (.outOfFuel, s)
  | fuel + 1, s =>
    match checkMaxAttempts s.attempts opts.maxAttempts with
    | some e => (.err (.sdkError e), s)
    | none =>
      match checkContext (env.ctx.doneAtCheck s.iter) env.ctx.errMsg with
      | some e => (.err (.sdkError e), s)
      | none =>
        let s1 : WaitState :=
          { s with attempts := s.attempts + 1, statusPolls := s.statusPolls + 1 }
        match pollJobStatus (env.statusFetch s.statusPolls) (env.resultFetch s.resultPolls) with
        | .statusFetchErr e => (.err e, s1)
        | .finished r => (.ok r, { s1 with resultPolls := s1.resultPolls + 1 })
        | .resultFetchErr e => (.err e, { s1 with resultPolls := s1.resultPolls + 1 })
        | .jobFailed e => (.err (.sdkError e), s1)
        | .keepPolling =>
          match waitWithBackoff (env.ctx.doneInSleep s.iter) s1.currentDelay opts.maxJitter
              (env.jitter s.iter) env.ctx.errMsg with
          | .panicked => (.panicked, s1)
          | .ctxCanceled e => (.err (.sdkError e), s1)
          | .slept _ =>
            runWaitAux env opts fuel
              { s1 with
                currentDelay := calculateNextDelay s1.currentDelay opts.multiplier opts.maxDelay,
                iter := s1.iter + 1 }

/-- Initial loop state: `currentDelay := opts.InitialDelay`, `attempts := 0`. -/
def initWaitState (opts : WaitOptions) : WaitState :=
  { attempts := 0, currentDelay := opts.initialDelay, statusPolls := 0, resultPolls := 0,
    iter := 0 }

/-- Model of `WaitUntilDoneWithOptions` (waiter file): apply defaults, then run the
polling loop. -/
def WaitUntilDoneWithOptions (env : WaitEnv) (opts : WaitOptions) (fuel : Nat) :
    WaitOutcome × WaitState :=
  let opts := applyWaitDefaults opts
  runWaitAux env opts fuel (initWaitState opts)

/-- Model of `WaitUntilDone` (waiter file): wait with the zero-valued options. -/
def WaitUntilDone (env : WaitEnv) (fuel : Nat) : WaitOutcome × WaitState :=
  WaitUntilDoneWithOptions env
    { initialDelay := 0, maxDelay := 0, multiplier := 0, maxJitter := 0, maxAttempts := 0 } fuel

/-- The deterministic base-delay sequence across loop iterations:
`current_delay[0] = initial_delay` and each iteration applies
`calculateNextDelay`. -/
def delaySeq (initialDelay : Duration) (multiplier : ℚ) (maxDelay : Duration) :
    Nat → Duration
  | 0 => initialDelay
  | i + 1 => calculateNextDelay (delaySeq initialDelay multiplier maxDelay i) multiplier maxDelay

/-! Concrete fixtures used to instantiate the theorems below. -/

/-- A non-terminal status snapshot. -/
def processingStatus : JobStatusInfo :=
  { id := "job-1", status := "processing", progress := 10, estimatedTime := 3, error := "" }

/-- A completed status snapshot. -/
def completedStatus : JobStatusInfo :=
  { id := "job-1", status := "completed", progress := 100, estimatedTime := 0, error := "" }

/-- A failed status snapshot. -/
def failedStatus : JobStatusInfo :=
  { id := "job-1", status := "failed", progress := 50, estimatedTime := 0, error := "boom" }

/-- A sample payload for the result-fetch collaborator. -/
def sampleResult : OCRResult :=
  { text := "hello\n", pages := [{ pageNumber := 1, text := "hello", confidence := 9/10 }],
    credits := 5, duration := second, jobID := "job-1", status := "completed" }

/-- A context that never cancels. -/
def quietCtx : CtxModel :=
  { doneAtCheck := fun _ => false, doneInSleep := fun _ => false, errMsg := "context canceled" }

/-- An environment whose status fetch always reports "processing". -/
def pollingEnv : WaitEnv :=
  { statusFetch := fun _ => .ok processingStatus, resultFetch := fun _ => .ok sampleResult,
    ctx := quietCtx, jitter := fun _ => 0 }

/-- An environment whose status fetch always reports "failed". -/
def failingEnv : WaitEnv :=
  { pollingEnv with statusFetch := fun _ => .ok failedStatus }

/-- An environment whose status fetch always reports "completed". -/
def completedEnv : WaitEnv :=
  { pollingEnv with statusFetch := fun _ => .ok completedStatus }

/-- An environment whose status fetch always errors. -/
def statusErrEnv : WaitEnv :=
  { pollingEnv with statusFetch := fun _ => .error (.other "status boom") }

/-- An environment reporting "completed" whose result fetch errors. -/
def resultErrEnv : WaitEnv :=
  { pollingEnv with
    statusFetch := fun _ => .ok completedStatus,
    resultFetch := fun _ => .error (.other "result boom") }

/-- An environment whose context is already canceled before the first check. -/
def preCanceledEnv : WaitEnv :=
  { pollingEnv with ctx := { quietCtx with doneAtCheck := fun _ => true } }

/-- An environment whose context fires during every sleep. -/
def sleepCanceledEnv : WaitEnv :=
  { pollingEnv with ctx := { quietCtx with doneInSleep := fun _ => true } }

/-! Helper lemmas about the defaulting pass. -/

lemma second_pos : 0 < second := by norm_num [second]

lemma applyWaitDefaults_initialDelay (opts : WaitOptions) :
    (applyWaitDefaults opts).initialDelay =
      if opts.initialDelay = 0 then second else opts.initialDelay := by
  simp only [applyWaitDefaults]
  split_ifs <;> rfl

lemma applyWaitDefaults_maxDelay (opts : WaitOptions) :
    (applyWaitDefaults opts).maxDelay =
      if opts.maxDelay = 0 then 30 * second else opts.maxDelay := by
  simp only [applyWaitDefaults]
  split_ifs <;> rfl

lemma applyWaitDefaults_multiplier (opts : WaitOptions) :
    (applyWaitDefaults opts).multiplier =
      if opts.multiplier = 0 then 3/2 else opts.multiplier := by
  simp only [applyWaitDefaults]
  split_ifs <;> rfl

lemma applyWaitDefaults_maxJitter (opts : WaitOptions) :
    (applyWaitDefaults opts).maxJitter =
      if opts.maxJitter = 0 then second else opts.maxJitter := by
  simp only [applyWaitDefaults]
  split_ifs <;> rfl

lemma applyWaitDefaults_maxAttempts (opts : WaitOptions) :
    (applyWaitDefaults opts).maxAttempts = opts.maxAttempts := by
  simp only [applyWaitDefaults]
  split_ifs <;> rfl

lemma applyWaitDefaults_fixed (opts : WaitOptions) (h1 : opts.initialDelay ≠ 0)
    (h2 : opts.maxDelay ≠ 0) (h3 : opts.multiplier ≠ 0) (h4 : opts.maxJitter ≠ 0) :
    applyWaitDefaults opts = opts := by
  simp only [applyWaitDefaults, if_neg h1, if_neg h2, if_neg h3, if_neg h4]

lemma applyWaitDefaults_maxJitter_pos (opts : WaitOptions) (h : 0 ≤ opts.maxJitter) :
    0 < (applyWaitDefaults opts).maxJitter := by
  rw [applyWaitDefaults_maxJitter]
  split_ifs with h0
  · exact second_pos
  · exact lt_of_le_of_ne h (Ne.symm h0)

/-! Helper lemmas about `goTrunc` and `calculateNextDelay`. -/

lemma goTrunc_intCast (n : Int) : goTrunc (n : ℚ) = n := by
  unfold goTrunc
  split_ifs <;> simp

lemma calculateNextDelay_eq_min (d : Duration) (m : ℚ) (maxD : Duration) :
    calculateNextDelay d m maxD = min (goTrunc ((d : ℚ) * m)) maxD := by
  unfold calculateNextDelay
  rcases le_or_lt (goTrunc ((d : ℚ) * m)) maxD with h | h
  · rw [if_neg (not_lt.mpr h), min_eq_left h]
  · rw [if_pos h, min_eq_right h.le]

lemma goTrunc_of_nonneg (x : ℚ) (h : 0 ≤ x) : goTrunc x = ⌊x⌋ := by
  unfold goTrunc
  rw [if_neg (not_lt.mpr h)]

lemma calculateNextDelay_bounds (d : Duration) (m : ℚ) (maxD : Duration)
    (hm : 1 ≤ m) (h0 : 0 ≤ d) (hle : d ≤ maxD) :
    d ≤ calculateNextDelay d m maxD ∧ calculateNextDelay d m maxD ≤ maxD := by
  have hd : (0 : ℚ) ≤ (d : ℚ) := by exact_mod_cast h0
  have hx : (d : ℚ) ≤ (d : ℚ) * m := le_mul_of_one_le_right hd hm
  have hfloor : d ≤ ⌊(d : ℚ) * m⌋ := Int.le_floor.mpr hx
  rw [calculateNextDelay_eq_min, goTrunc_of_nonneg _ (le_trans hd hx)]
  exact ⟨le_min hfloor hle, min_le_right _ _⟩

/-! Helper lemmas about the loop body. -/

lemma checkMaxAttempts_not_reached (a m : Int) (h : ¬ (m > 0 ∧ a ≥ m)) :
    checkMaxAttempts a m = none := by
  unfold checkMaxAttempts
  exact if_neg h

lemma checkMaxAttempts_zero (m : Int) : checkMaxAttempts 0 m = none :=
  checkMaxAttempts_not_reached 0 m (by omega)

lemma checkMaxAttempts_reached (a m : Int) (h1 : 0 < m) (h2 : m ≤ a) :
    checkMaxAttempts a m =
      some (NewSDKError ErrorTypeTimeout "maximum polling attempts exceeded" none) := by
  unfold checkMaxAttempts
  exact if_pos ⟨h1, h2⟩

lemma checkContext_not_done (e : String) : checkContext false e = none := rfl

lemma checkContext_done (e : String) :
    checkContext true e =
      some (NewSDKError ErrorTypeTimeout "context canceled while waiting for completion"
        (some e)) := rfl

lemma pollJobStatus_statusFetchErr (e : GoError) (r : Except GoError OCRResult) :
    pollJobStatus (.error e) r = .statusFetchErr e := rfl

lemma pollJobStatus_keepPolling (st : JobStatusInfo) (r : Except GoError OCRResult)
    (h : isTerminalStatus st.status = false) : pollJobStatus (.ok st) r = .keepPolling := by
  simp only [isTerminalStatus, Bool.or_eq_false_iff, beq_eq_false_iff_ne, ne_eq] at h
  obtain ⟨⟨⟨h1, h2⟩, h3⟩, h4⟩ := h
  simp only [pollJobStatus]
  rw [if_neg h1, if_neg (not_or.mpr ⟨h2, h3⟩), if_neg h4]

lemma pollJobStatus_completed (st : JobStatusInfo) (r : Except GoError OCRResult)
    (h : st.status = "completed") :
    pollJobStatus (.ok st) r =
      match r with
      | .ok res => .finished res
      | .error e => .resultFetchErr e := by
  simp only [pollJobStatus]
  rw [if_pos h]

lemma pollJobStatus_jobFailed (st : JobStatusInfo) (r : Except GoError OCRResult)
    (h : st.status = "failed" ∨ st.status = "error" ∨ st.status = "canceled") :
    ∃ e : SDKError, pollJobStatus (.ok st) r = .jobFailed e ∧ e.type = ErrorTypeJobError := by
  have hne : st.status ≠ "completed" := by rcases h with h | h | h <;> simp [h]
  simp only [pollJobStatus]
  rw [if_neg hne]
  rcases h with h | h | h
  · rw [if_pos (Or.inl h)]
    exact ⟨_, rfl, rfl⟩
  · rw [if_pos (Or.inr h)]
    exact ⟨_, rfl, rfl⟩
  · rw [if_neg (by rw [h]; simp), if_pos h]
    exact ⟨_, rfl, rfl⟩

lemma waitWithBackoff_slept (d mj j : Duration) (e : String) (h : 0 < mj) :
    waitWithBackoff false d mj j e = .slept (sleepDurationOf d j) := by
  simp [waitWithBackoff, not_le.mpr h]

lemma waitWithBackoff_canceled (d mj j : Duration) (e : String) (h : 0 < mj) :
    waitWithBackoff true d mj j e =
      .ctxCanceled (NewSDKError ErrorTypeTimeout "context canceled while waiting" (some e)) := by
  simp [waitWithBackoff, not_le.mpr h]

lemma waitWithBackoff_panics (b : Bool) (d mj j : Duration) (e : String) (h : mj ≤ 0) :
    waitWithBackoff b d mj j e = .panicked := by
  simp [waitWithBackoff, h]

/-- One non-terminal iteration of the loop: both checks pass, the status
poll reports a non-terminal state, the sleep completes, and the loop
recurses on the updated state. -/
lemma runWaitAux_step (env : WaitEnv) (opts : WaitOptions) (fuel : Nat) (s : WaitState)
    (hMA : ¬ (opts.maxAttempts > 0 ∧ s.attempts ≥ opts.maxAttempts))
    (hC : env.ctx.doneAtCheck s.iter = false)
    (hS : env.ctx.doneInSleep s.iter = false)
    (hJ : 0 < opts.maxJitter)
    (st : JobStatusInfo) (hst : env.statusFetch s.statusPolls = .ok st)
    (hterm : isTerminalStatus st.status = false) :
    runWaitAux env opts (fuel + 1) s =
      runWaitAux env opts fuel
        { s with
          attempts := s.attempts + 1,
          statusPolls := s.statusPolls + 1,
          currentDelay := calculateNextDelay s.currentDelay opts.multiplier opts.maxDelay,
          iter := s.iter + 1 } := by
  simp only [runWaitAux, checkMaxAttempts_not_reached _ _ hMA, hC, checkContext_not_done,
    hst, pollJobStatus_keepPolling st _ hterm, hS, waitWithBackoff_slept _ _ _ _ hJ]

end LeapOCR

namespace LeapOCR

/-- Claim C3 counterexample: the defaulting pass does not replace a strictly
negative multiplier.  With `Multiplier = -1` (and all other fields
populated), the defaulted multiplier is still `-1`, not the default `1.5`,
so "values ≤ 0 are treated as unset" fails. -/
theorem multiplier_le_zero_not_defaulted_cex :
    (WaitOptions.mk second (30 * second) (-1) second 0).multiplier ≤ 0 ∧
    (applyWaitDefaults (WaitOptions.mk second (30 * second) (-1) second 0)).multiplier ≠ 3/2 := by
  constructor
  · norm_num
  · rw [applyWaitDefaults_multiplier]
    norm_num

/-- Claim C3 (amended): the defaulting pass replaces the multiplier with the
default 1.5 exactly when it is zero; any non-zero multiplier — including
negative ones — is left unchanged (and not rejected). -/
theorem multiplier_defaulting_zero_only (opts : WaitOptions) :
    (opts.multiplier = 0 → (applyWaitDefaults opts).multiplier = 3/2) ∧
    (opts.multiplier ≠ 0 → (applyWaitDefaults opts).multiplier = opts.multiplier) := by
  constructor <;> intro h <;> rw [applyWaitDefaults_multiplier] <;> simp [h]

/-- Witness for the amended claim C3 theorem at the all-zero options. -/
theorem multiplier_defaulting_zero_only_witness :
    (applyWaitDefaults (WaitOptions.mk 0 0 0 0 0)).multiplier = 3/2 :=
  (multiplier_defaulting_zero_only (WaitOptions.mk 0 0 0 0 0)).1 rfl

/-- Claim C9: the defaulting pass is idempotent, and it is the identity on
any configuration whose four timing fields are all non-zero. -/
theorem waitDefaults_idempotent (opts : WaitOptions) :
    applyWaitDefaults (applyWaitDefaults opts) = applyWaitDefaults opts ∧
    (opts.initialDelay ≠ 0 → opts.maxDelay ≠ 0 → opts.multiplier ≠ 0 → opts.maxJitter ≠ 0 →
      applyWaitDefaults opts = opts) := by
  constructor
  · apply applyWaitDefaults_fixed
    · rw [applyWaitDefaults_initialDelay]
      split_ifs with h
      · exact second_pos.ne.symm
      · exact h
    · rw [applyWaitDefaults_maxDelay]
      split_ifs with h
      · norm_num [second]
      · exact h
    · rw [applyWaitDefaults_multiplier]
      split_ifs with h
      · norm_num
      · exact h
    · rw [applyWaitDefaults_maxJitter]
      split_ifs with h
      · exact second_pos.ne.symm
      · exact h
  · intro h1 h2 h3 h4
    exact applyWaitDefaults_fixed opts h1 h2 h3 h4

/-- Witness for claim C9 at the fully populated default configuration. -/
theorem waitDefaults_idempotent_witness :
    applyWaitDefaults (applyWaitDefaults DefaultWaitOptions) = applyWaitDefaults DefaultWaitOptions ∧
    applyWaitDefaults DefaultWaitOptions = DefaultWaitOptions := by
  refine ⟨(waitDefaults_idempotent DefaultWaitOptions).1,
    (waitDefaults_idempotent DefaultWaitOptions).2 ?_ ?_ ?_ ?_⟩ <;>
    norm_num [DefaultWaitOptions, second]

/-- Claim C7 counterexample: with `multiplier = 1.5 ≥ 1` but
`initial_delay = 60 > 30 = max_delay` — a configuration the defaulting pass
returns unchanged — the base-delay sequence strictly decreases from
iteration 0 to iteration 1 (from 60 down to the cap 30), so it is not
non-decreasing for every configuration with multiplier ≥ 1. -/
theorem backoff_monotone_cex :
    applyWaitDefaults (WaitOptions.mk 60 30 (3/2) second 0) =
      WaitOptions.mk 60 30 (3/2) second 0 ∧
    (1 : ℚ) ≤ 3/2 ∧
    delaySeq 60 (3/2) 30 1 < delaySeq 60 (3/2) 30 0 := by
  refine ⟨applyWaitDefaults_fixed _ ?_ ?_ ?_ ?_, by norm_num, ?_⟩
  · norm_num
  · norm_num
  · norm_num
  · exact second_pos.ne.symm
  · show calculateNextDelay 60 (3/2) 30 < 60
    rw [calculateNextDelay_eq_min]
    have h : ((60 : ℤ) : ℚ) * (3/2) = ((90 : ℤ) : ℚ) := by norm_num
    rw [h, goTrunc_intCast]
    norm_num

/-- Claim C7 (amended): the delay recurrence
`current_delay[i+1] = min(trunc(current_delay[i] * multiplier), max_delay)`
holds for every iteration, and the base-delay sequence is non-decreasing
whenever `multiplier ≥ 1`, provided additionally
`0 ≤ initial_delay ≤ max_delay` (without that proviso the first step can
drop the delay to the cap, see the counterexample). -/
theorem backoff_recurrence_monotone (d0 : Duration) (m : ℚ) (maxD : Duration)
    (hm : 1 ≤ m) (h0 : 0 ≤ d0) (hle : d0 ≤ maxD) :
    (∀ i, delaySeq d0 m maxD (i + 1) =
        min (goTrunc ((delaySeq d0 m maxD i : ℚ) * m)) maxD) ∧
    (∀ i, delaySeq d0 m maxD i ≤ delaySeq d0 m maxD (i + 1)) := by
  have hinv : ∀ i, 0 ≤ delaySeq d0 m maxD i ∧ delaySeq d0 m maxD i ≤ maxD := by
    intro i
    induction i with
    | zero => exact ⟨h0, hle⟩
    | succ n ih =>
      have h := calculateNextDelay_bounds (delaySeq d0 m maxD n) m maxD hm ih.1 ih.2
      exact ⟨le_trans ih.1 h.1, h.2⟩
  refine ⟨fun i => calculateNextDelay_eq_min _ _ _, fun i => ?_⟩
  exact (calculateNextDelay_bounds _ m maxD hm (hinv i).1 (hinv i).2).1

/-- Witness for the amended claim C7 theorem: default delays, one step. -/
theorem backoff_recurrence_monotone_witness :
    delaySeq second (3/2) (30 * second) 0 ≤ delaySeq second (3/2) (30 * second) 1 :=
  (backoff_recurrence_monotone second (3/2) (30 * second) (by norm_num)
    (by norm_num [second]) (by norm_num [second])).2 0

/-- Claim C8: with a jitter sample `j` drawn from `[0, max_jitter)` (the
guarantee of the random source for `max_jitter > 0`), the sleep of an
iteration with base delay `delay` lasts exactly `delay + j`, which lies in
`[delay, delay + max_jitter)`; the jitter is added, never subtracted. -/
theorem jitter_sleep_bound (delay maxJitter j : Duration) (ctxErr : String)
    (h0 : 0 ≤ j) (h1 : j < maxJitter) :
    waitWithBackoff false delay maxJitter j ctxErr = .slept (sleepDurationOf delay j) ∧
    delay ≤ sleepDurationOf delay j ∧ sleepDurationOf delay j < delay + maxJitter := by
  have hpos : ¬ (maxJitter ≤ 0) := not_le.mpr (lt_of_le_of_lt h0 h1)
  refine ⟨?_, ?_, ?_⟩
  · simp [waitWithBackoff, hpos]
  · simp only [sleepDurationOf]
    exact le_add_of_nonneg_right h0
  · simp only [sleepDurationOf]
    exact add_lt_add_left h1 delay

/-- Witness for claim C8 at `delay = 5`, `max_jitter = 3`, `j = 2`. -/
theorem jitter_sleep_bound_witness :
    waitWithBackoff false 5 3 2 "context canceled" = .slept (sleepDurationOf 5 2) ∧
    5 ≤ sleepDurationOf 5 2 ∧ sleepDurationOf 5 2 < 5 + 3 :=
  jitter_sleep_bound 5 3 2 "context canceled" (by norm_num) (by norm_num)

/-- Claim C2: if the first status poll reports "failed", "error" or
"canceled", the wait call fails at once with a job-error
(`ErrorTypeJobError`) `SDKError`, and the result fetch is never invoked. -/
theorem job_failed_no_result_fetch (env : WaitEnv) (opts : WaitOptions) (fuel : Nat)
    (hFuel : 0 < fuel) (hC : env.ctx.doneAtCheck 0 = false)
    (st : JobStatusInfo) (hst : env.statusFetch 0 = .ok st)
    (hterm : st.status = "failed" ∨ st.status = "error" ∨ st.status = "canceled") :
    (∃ e : SDKError, (WaitUntilDoneWithOptions env opts fuel).1 = .err (.sdkError e) ∧
      e.type = ErrorTypeJobError) ∧
    (WaitUntilDoneWithOptions env opts fuel).2.resultPolls = 0 := by
  obtain ⟨f, rfl⟩ : ∃ f, fuel = f + 1 := ⟨fuel - 1, by omega⟩
  obtain ⟨e, hpoll, htype⟩ := pollJobStatus_jobFailed st (env.resultFetch 0) hterm
  simp only [WaitUntilDoneWithOptions, initWaitState, runWaitAux, checkMaxAttempts_zero,
    hC, checkContext_not_done, hst, hpoll]
  exact ⟨⟨e, rfl, htype⟩, trivial⟩

/-- Witness for claim C2: a stub whose first poll reports "failed". -/
theorem job_failed_no_result_fetch_witness :
    (∃ e : SDKError, (WaitUntilDoneWithOptions failingEnv DefaultWaitOptions 1).1 =
      .err (.sdkError e) ∧ e.type = ErrorTypeJobError) ∧
    (WaitUntilDoneWithOptions failingEnv DefaultWaitOptions 1).2.resultPolls = 0 :=
  job_failed_no_result_fetch failingEnv DefaultWaitOptions 1 (by norm_num) rfl
    failedStatus rfl (Or.inl rfl)

/-- Claim C4: if the first status poll reports "completed", the waiter
issues exactly one status poll and one result poll and passes the result
fetch response through unchanged — the payload on success, the error
itself (unretried) on failure. -/
theorem completed_first_poll_identity (env : WaitEnv) (opts : WaitOptions) (fuel : Nat)
    (hFuel : 0 < fuel) (hC : env.ctx.doneAtCheck 0 = false)
    (st : JobStatusInfo) (hst : env.statusFetch 0 = .ok st)
    (hcomp : st.status = "completed") :
    (WaitUntilDoneWithOptions env opts fuel).1 =
      (match env.resultFetch 0 with
       | .ok r => .ok r
       | .error e => .err e) ∧
    (WaitUntilDoneWithOptions env opts fuel).2.statusPolls = 1 ∧
    (WaitUntilDoneWithOptions env opts fuel).2.resultPolls = 1 := by
  obtain ⟨f, rfl⟩ : ∃ f, fuel = f + 1 := ⟨fuel - 1, by omega⟩
  rcases hres : env.resultFetch 0 with e | r <;>
    simp only [WaitUntilDoneWithOptions, initWaitState, runWaitAux, checkMaxAttempts_zero,
      hC, checkContext_not_done, hst, pollJobStatus_completed st _ hcomp, hres] <;>
    exact ⟨trivial, trivial, trivial⟩

/-- Witness for claim C4: completed on the first poll, result passed through. -/
theorem completed_first_poll_identity_witness :
    (WaitUntilDoneWithOptions completedEnv DefaultWaitOptions 1).1 =
      (match completedEnv.resultFetch 0 with
       | .ok r => .ok r
       | .error e => .err e) ∧
    (WaitUntilDoneWithOptions completedEnv DefaultWaitOptions 1).2.statusPolls = 1 ∧
    (WaitUntilDoneWithOptions completedEnv DefaultWaitOptions 1).2.resultPolls = 1 :=
  completed_first_poll_identity completedEnv DefaultWaitOptions 1 (by norm_num) rfl
    completedStatus rfl rfl

/-- Claim C5: a cancellation observed at the top of the first iteration
fails the call with the timeout-class context error and zero status polls;
a cancellation firing during the first sleep fails the call with the
timeout-class context error after the single status poll, with no further
polls. -/
theorem cancellation_stops_polling (env : WaitEnv) (opts : WaitOptions) (fuel : Nat)
    (hFuel : 0 < fuel) :
    (env.ctx.doneAtCheck 0 = true →
      (WaitUntilDoneWithOptions env opts fuel).1 =
        .err (.sdkError (NewSDKError ErrorTypeTimeout
          "context canceled while waiting for completion" (some env.ctx.errMsg))) ∧
      (WaitUntilDoneWithOptions env opts fuel).2.statusPolls = 0) ∧
    (∀ st : JobStatusInfo, env.ctx.doneAtCheck 0 = false → env.statusFetch 0 = .ok st →
      isTerminalStatus st.status = false → env.ctx.doneInSleep 0 = true →
      0 ≤ opts.maxJitter →
      (WaitUntilDoneWithOptions env opts fuel).1 =
        .err (.sdkError (NewSDKError ErrorTypeTimeout
          "context canceled while waiting" (some env.ctx.errMsg))) ∧
      (WaitUntilDoneWithOptions env opts fuel).2.statusPolls = 1) := by
  obtain ⟨f, rfl⟩ : ∃ f, fuel = f + 1 := ⟨fuel - 1, by omega⟩
  constructor
  · intro hC
    simp only [WaitUntilDoneWithOptions, initWaitState, runWaitAux, checkMaxAttempts_zero,
      hC, checkContext_done]
    exact ⟨trivial, trivial⟩
  · intro st hC hst hterm hS hJ
    have hJp : 0 < (applyWaitDefaults opts).maxJitter := applyWaitDefaults_maxJitter_pos opts hJ
    simp only [WaitUntilDoneWithOptions, initWaitState, runWaitAux, checkMaxAttempts_zero,
      hC, checkContext_not_done, hst, pollJobStatus_keepPolling st _ hterm, hS,
      waitWithBackoff_canceled _ _ _ _ hJp]
    exact ⟨trivial, trivial⟩

/-- Witness for claim C5: pre-triggered cancellation, zero polls. -/
theorem cancellation_stops_polling_witness :
    (WaitUntilDoneWithOptions preCanceledEnv DefaultWaitOptions 1).1 =
      .err (.sdkError (NewSDKError ErrorTypeTimeout
        "context canceled while waiting for completion" (some "context canceled"))) ∧
    (WaitUntilDoneWithOptions preCanceledEnv DefaultWaitOptions 1).2.statusPolls = 0 :=
  (cancellation_stops_polling preCanceledEnv DefaultWaitOptions 1 (by norm_num)).1 rfl

/-- Claim C6: an error from the status fetch, or from the result fetch
after a "completed" status, is returned by the wait call as exactly that
error value — not wrapped, not reclassified — and the failing collaborator
is not retried (one status poll, respectively one result poll). -/
theorem collaborator_error_propagated (env : WaitEnv) (opts : WaitOptions) (fuel : Nat)
    (hFuel : 0 < fuel) (hC : env.ctx.doneAtCheck 0 = false) :
    (∀ e : GoError, env.statusFetch 0 = .error e →
      (WaitUntilDoneWithOptions env opts fuel).1 = .err e ∧
      (WaitUntilDoneWithOptions env opts fuel).2.statusPolls = 1) ∧
    (∀ (st : JobStatusInfo) (e : GoError), env.statusFetch 0 = .ok st →
      st.status = "completed" → env.resultFetch 0 = .error e →
      (WaitUntilDoneWithOptions env opts fuel).1 = .err e ∧
      (WaitUntilDoneWithOptions env opts fuel).2.resultPolls = 1) := by
  obtain ⟨f, rfl⟩ : ∃ f, fuel = f + 1 := ⟨fuel - 1, by omega⟩
  constructor
  · intro e hst
    simp only [WaitUntilDoneWithOptions, initWaitState, runWaitAux, checkMaxAttempts_zero,
      hC, checkContext_not_done, hst, pollJobStatus_statusFetchErr]
    exact ⟨trivial, trivial⟩
  · intro st e hst hcomp hres
    simp only [WaitUntilDoneWithOptions, initWaitState, runWaitAux, checkMaxAttempts_zero,
      hC, checkContext_not_done, hst, pollJobStatus_completed st _ hcomp, hres]
    exact ⟨trivial, trivial⟩

/-- Witness for claim C6: an opaque status-fetch error comes back verbatim. -/
theorem collaborator_error_propagated_witness :
    (WaitUntilDoneWithOptions statusErrEnv DefaultWaitOptions 1).1 =
      .err (.other "status boom") ∧
    (WaitUntilDoneWithOptions statusErrEnv DefaultWaitOptions 1).2.statusPolls = 1 :=
  (collaborator_error_propagated statusErrEnv DefaultWaitOptions 1 (by norm_num) rfl).1
    (.other "status boom") rfl

/-- Never-terminal runs exhaust the attempt budget: entered with
`attempts = k ≤ N = max_attempts`, the loop issues exactly `N - k` further
status polls and then fails with the max-attempts timeout error. -/
lemma runWaitAux_nonterminal_timeout (env : WaitEnv) (opts : WaitOptions) (N : Nat)
    (hN : 0 < N) (hA : opts.maxAttempts = (N : Int)) (hJ : 0 < opts.maxJitter)
    (hCtx : ∀ i, env.ctx.doneAtCheck i = false)
    (hSleep : ∀ i, env.ctx.doneInSleep i = false)
    (hStatus : ∀ p, ∃ st, env.statusFetch p = .ok st ∧ isTerminalStatus st.status = false) :
    ∀ (fuel k : Nat) (s : WaitState), s.attempts = (k : Int) → k ≤ N → N - k < fuel →
      (runWaitAux env opts fuel s).1 =
        .err (.sdkError (NewSDKError ErrorTypeTimeout
          "maximum polling attempts exceeded" none)) ∧
      (runWaitAux env opts fuel s).2.statusPolls = s.statusPolls + (N - k) := by
  intro fuel
  induction fuel with
  | zero =>
    intro k s _ _ h
    omega
  | succ f ih =>
    intro k s hs hkN hfuel
    rcases eq_or_lt_of_le hkN with heq | hlt
    · have hchk : checkMaxAttempts s.attempts opts.maxAttempts =
          some (NewSDKError ErrorTypeTimeout "maximum polling attempts exceeded" none) := by
        apply checkMaxAttempts_reached
        · rw [hA]
          exact_mod_cast hN
        · rw [hA, hs, heq]
      simp only [runWaitAux, hchk]
      refine ⟨trivial, ?_⟩
      omega
    · obtain ⟨st, hst, hterm⟩ := hStatus s.statusPolls
      have hMA : ¬ (opts.maxAttempts > 0 ∧ s.attempts ≥ opts.maxAttempts) := by
        rw [hA, hs]
        omega
      rw [runWaitAux_step env opts f s hMA (hCtx s.iter) (hSleep s.iter) hJ st hst hterm]
      have hrec := ih (k + 1)
        { s with
          attempts := s.attempts + 1,
          statusPolls := s.statusPolls + 1,
          currentDelay := calculateNextDelay s.currentDelay opts.multiplier opts.maxDelay,
          iter := s.iter + 1 }
        (by show s.attempts + 1 = ((k + 1 : Nat) : Int); omega) (by omega) (by omega)
      refine ⟨hrec.1, ?_⟩
      rw [hrec.2]
      show s.statusPolls + 1 + (N - (k + 1)) = s.statusPolls + (N - k)
      omega

/-- Claim C1: with `max_attempts = N > 0`, a status fetch that never
reports a terminal state and a context that never cancels, the wait call
issues exactly `N` status polls and fails with the timeout-class
max-attempts error (the cap check precedes the attempt increment). -/
theorem max_attempts_exact_polls (env : WaitEnv) (opts : WaitOptions) (N : Nat)
    (hN : 0 < N) (hA : opts.maxAttempts = (N : Int)) (hJ : 0 ≤ opts.maxJitter)
    (hCtx : ∀ i, env.ctx.doneAtCheck i = false)
    (hSleep : ∀ i, env.ctx.doneInSleep i = false)
    (hStatus : ∀ p, ∃ st, env.statusFetch p = .ok st ∧ isTerminalStatus st.status = false)
    (fuel : Nat) (hFuel : N < fuel) :
    (WaitUntilDoneWithOptions env opts fuel).1 =
      .err (.sdkError (NewSDKError ErrorTypeTimeout
        "maximum polling attempts exceeded" none)) ∧
    (WaitUntilDoneWithOptions env opts fuel).2.statusPolls = N := by
  have key := runWaitAux_nonterminal_timeout env (applyWaitDefaults opts) N hN
    (by rw [applyWaitDefaults_maxAttempts, hA])
    (applyWaitDefaults_maxJitter_pos opts hJ) hCtx hSleep hStatus fuel 0
    (initWaitState (applyWaitDefaults opts)) rfl (Nat.zero_le N) (by omega)
  refine ⟨key.1, ?_⟩
  have h2 := key.2
  simpa [WaitUntilDoneWithOptions, initWaitState] using h2

/-- Witness for claim C1: `max_attempts = 2`, always "processing": two
polls, then the timeout error. -/
theorem max_attempts_exact_polls_witness :
    (WaitUntilDoneWithOptions pollingEnv (WaitOptions.mk 0 0 0 0 2) 3).1 =
      .err (.sdkError (NewSDKError ErrorTypeTimeout
        "maximum polling attempts exceeded" none)) ∧
    (WaitUntilDoneWithOptions pollingEnv (WaitOptions.mk 0 0 0 0 2) 3).2.statusPolls = 2 :=
  max_attempts_exact_polls pollingEnv (WaitOptions.mk 0 0 0 0 2) 2 (by norm_num)
    (by norm_num) (by norm_num) (fun i => rfl) (fun i => rfl)
    (fun p => ⟨processingStatus, rfl, rfl⟩) 3 (by norm_num)

/-- Claim C10: the defaulting pass leaves a strictly negative `MaxJitter`
unchanged (it replaces only exactly-zero fields); the jitter computation
panics for any non-positive bound, so a wait that reaches the sleep step
with a negative `MaxJitter` panics instead of returning an error. -/
theorem negative_maxJitter_panics (env : WaitEnv) (opts : WaitOptions) (fuel : Nat)
    (hJ : opts.maxJitter < 0) (hFuel : 0 < fuel)
    (hC : env.ctx.doneAtCheck 0 = false)
    (st : JobStatusInfo) (hst : env.statusFetch 0 = .ok st)
    (hterm : isTerminalStatus st.status = false) :
    (applyWaitDefaults opts).maxJitter = opts.maxJitter ∧
    (∀ (b : Bool) (delay j : Duration) (ctxErr : String),
      waitWithBackoff b delay opts.maxJitter j ctxErr = .panicked) ∧
    (WaitUntilDoneWithOptions env opts fuel).1 = .panicked := by
  have hJd : (applyWaitDefaults opts).maxJitter = opts.maxJitter := by
    rw [applyWaitDefaults_maxJitter, if_neg hJ.ne]
  refine ⟨hJd, fun b delay j ctxErr => waitWithBackoff_panics b delay _ j ctxErr hJ.le, ?_⟩
  obtain ⟨f, rfl⟩ : ∃ f, fuel = f + 1 := ⟨fuel - 1, by omega⟩
  have hp : ∀ (b : Bool) (d j : Duration) (e : String),
      waitWithBackoff b d (applyWaitDefaults opts).maxJitter j e = .panicked := by
    intro b d j e
    rw [hJd]
    exact waitWithBackoff_panics b d _ j e hJ.le
  simp only [WaitUntilDoneWithOptions, initWaitState, runWaitAux, checkMaxAttempts_zero,
    hC, checkContext_not_done, hst, pollJobStatus_keepPolling st _ hterm, hp]

/-- Witness for claim C10 with `MaxJitter = -1` and a "processing" stub. -/
theorem negative_maxJitter_panics_witness :
    (applyWaitDefaults (WaitOptions.mk 0 0 0 (-1) 0)).maxJitter =
      (WaitOptions.mk 0 0 0 (-1) 0).maxJitter ∧
    (∀ (b : Bool) (delay j : Duration) (ctxErr : String),
      waitWithBackoff b delay (WaitOptions.mk 0 0 0 (-1) 0).maxJitter j ctxErr = .panicked) ∧
    (WaitUntilDoneWithOptions pollingEnv (WaitOptions.mk 0 0 0 (-1) 0) 1).1 = .panicked :=
  negative_maxJitter_panics pollingEnv (WaitOptions.mk 0 0 0 (-1) 0) 1 (by norm_num)
    (by norm_num) rfl processingStatus rfl rfl

end LeapOCR
